import Mathlib

/-
Verification of the `cmdlapp` lifecycle coordinator (cmdlapp/cmdlapp.py):
a base class for command-line tools that parses flags, sets up logging,
optionally loads a YAML config file, optionally reloads it on SIGHUP, and
delegates to a user-supplied work function under top-level error containment.

The embedding models the observable behavior of each method as a pure
function producing a trace of logging/registration events together with the
resulting state or exception, mirroring the Python source line by line.
-/

namespace Cmdlapp

/-- Python values storable as configuration attributes via `setattr`
(booleans, strings, ints, and function objects identified by an id). -/
inductive PyVal where
  | bool (b : Bool)
  | str (s : String)
  | int (n : Int)
  | fct (id : Nat)
  deriving DecidableEq, Repr

/-- The class attribute `CmdlApp.cfg_keys` (cmdlapp.py lines 19-25). -/
def cfg_keys : List String :=
  ["main_fct", "has_cfgfile", "reload_on_hup", "tool_name", "tool_version"]

/-- A `CmdlApp` instance's dynamic attribute dictionary: the most recent
`setattr` for a key shadows earlier ones. -/
structure App where
  attrs : List (String × PyVal)
  deriving DecidableEq, Repr

/-- Python `setattr(self, key, value)`: (re)bind the attribute. -/
def App.setattr (app : App) (k : String) (v : PyVal) : App :=
  ⟨(k, v) :: app.attrs⟩

/-- Python attribute read: the most recently set binding, if any. -/
def App.getattr (app : App) (k : String) : Option PyVal :=
  (app.attrs.find? (fun p => p.1 == k)).map (·.2)

/-- `CmdlApp.configure` (lines 36-51): iterate over the keyword arguments in
order; an unrecognized key raises `ValueError` (modelled as the `some` error
component, with the partially updated instance kept, since the Python
exception propagates after earlier `setattr` calls already took effect);
a recognized key is applied with `setattr`. -/
def App.configure (app : App) : List (String × PyVal) → App × Option String
  | [] => (app, none)
  | (k, v) :: rest =>
      if k ∈ cfg_keys then
        (app.setattr k v).configure rest
      else
        (app, some ("Invalid config parameter '" ++ k ++ "'."))

/-- `CmdlApp.__init__` (lines 27-33): configure the defaults; `tool_name`
defaults to the class name of the concrete instance. -/
def App.init (cls_name : String) : App × Option String :=
  App.configure ⟨[]⟩
    [("has_cfgfile", .bool false),
     ("reload_on_hup", .bool false),
     ("tool_name", .str cls_name),
     ("tool_version", .str "0.0-dev")]

/-- Python logging levels (logging.DEBUG, logging.INFO, logging.WARNING). -/
def DEBUG : Nat := 10

/-- logging.INFO. -/
def INFO : Nat := 20

/-- logging.WARNING. -/
def WARNING : Nat := 30

/-- The logging level denoted by a lowercase level name as used in the
"Logging system initialized to level ..." message. -/
def levelOfName (s : String) : Option Nat :=
  if s = "debug" then some DEBUG
  else if s = "info" then some INFO
  else if s = "warning" then some WARNING
  else none

/-- Observable events of a run: leveled log records, the
`logging.basicConfig` call, signal-handler registration, and a marker for
the moment control is transferred to the work function `self.main_fct()`. -/
inductive Event where
  | logInfo (msg : String)
  | logError (msg : String)
  | logException (msg : String)
  | basicConfig (level : Nat) (filename : Option String)
  | registerHandler (sig : Nat)
  | invokeMain
  deriving DecidableEq, Repr

/-- signal.SIGHUP on Linux. -/
def SIGHUP : Nat := 1

/-- One command-line option spec added by `ArgumentParser.add_argument`. -/
structure ArgSpec where
  short : String
  long : String
  dest : String
  isFlag : Bool
  dflt : Option String
  required : Bool
  deriving DecidableEq, Repr

/-- `CmdlApp.setup_args` (lines 54-71): always `--verbose` alias `-v`
(store_true) and `--logfile` alias `-l` (default None); `--cfg` alias `-c`
(required) exactly when `has_cfgfile == True`. -/
def setup_args (has_cfgfile : Bool) : List ArgSpec :=
  [⟨"-v", "--verbose", "verbose", true, none, false⟩,
   ⟨"-l", "--logfile", "logfile", false, none, false⟩] ++
  (if has_cfgfile then [⟨"-c", "--cfg", "cfg", false, none, true⟩] else [])

/-- What the user supplied on the command line: boolean flags given by
dest name, and valued options given as (dest, value) pairs. -/
structure Cmdline where
  flags : List String
  opts : List (String × String)
  deriving DecidableEq, Repr

/-- The parsed argparse namespace. `cfg` is `none` when the `--cfg` option
was not declared (the attribute is absent on the namespace). -/
structure Args where
  verbose : Bool
  logfile : Option String
  cfg : Option String
  deriving DecidableEq, Repr

/-- Value supplied for a dest name, if any. -/
def Cmdline.getOpt (cl : Cmdline) (dest : String) : Option String :=
  (cl.opts.find? (fun p => p.1 == dest)).map (·.2)

/-- `ArgumentParser.parse_args` behavior on the spec list built by
`setup_args`: reject unknown options and missing required options with the
argparse error exit (status 2), otherwise build the namespace, taking each
declared option's supplied value or its default. -/
def parse_args (specs : List ArgSpec) (cl : Cmdline) : Except Nat Args :=
  let known := fun n => specs.any (fun s => s.dest == n)
  if cl.flags.all known && cl.opts.all (fun p => known p.1) &&
     specs.all (fun s => !s.required || (cl.getOpt s.dest).isSome) then
    .ok ⟨cl.flags.contains "verbose",
         cl.getOpt "logfile",
         if specs.any (fun s => s.dest == "cfg") then cl.getOpt "cfg" else none⟩
  else
    .error 2

/-- `CmdlApp.setup_logging` (lines 74-102): pick level DEBUG with name
"debug" when verbose, else level INFO with name "warning"; configure the
logging system (appending to the logfile when one was given); then log the
startup banner and the level message, both at info level. -/
def setup_logging (args : Args) (tool_name tool_version : String) : List Event :=
  let lvl := if args.verbose then DEBUG else INFO
  let levelname := if args.verbose then "debug" else "warning"
  [Event.basicConfig lvl args.logfile,
   Event.logInfo (tool_name ++ " " ++ tool_version ++ " starting."),
   Event.logInfo ("Logging system initialized to level '" ++ levelname ++ "'.")]

/-- A YAML document as produced by `yaml.load` (scalar shapes suffice for
this development; the YAML library is external to the repository). -/
inductive Yaml where
  | null
  | bool (b : Bool)
  | int (n : Int)
  | str (s : String)
  deriving DecidableEq, Repr

/-- The file system as seen through `open` + `yaml.load`: `some v` when the
file at the path exists, is readable and parses to `v`; `none` when the
load fails for any reason (missing, unreadable, malformed). -/
abbrev FS := String → Option Yaml

/-- Python exceptions relevant to the lifecycle. -/
inductive PyExc where
  | keyboardInterrupt
  | systemExit (code : Nat)
  | attributeError (name : String)
  | other (name : String)
  deriving DecidableEq, Repr

/-- The mutable instance state live during `run`: the configured booleans,
the parsed `self.args` fields that the methods read, and `self.cfg`. -/
structure St where
  reload_on_hup : Bool
  has_cfgfile : Bool
  args_verbose : Bool
  args_cfg : Option String
  cfg : Option Yaml
  deriving DecidableEq, Repr

/-- `CmdlApp.load_cfgfile` (lines 105-126): reading `self.args.cfg` when the
`--cfg` option was never declared raises AttributeError; otherwise log the
"Loading config file" info message, then try the load: on success assign
`self.cfg`; on failure log `logging.exception` (traceback) when verbose else
`logging.error`, and call `sys.exit(1)`, i.e. raise SystemExit(1). -/
def St.load_cfgfile (st : St) (fs : FS) : St × List Event × Option PyExc :=
  match st.args_cfg with
  | none => (st, [], some (.attributeError "cfg"))
  | some path =>
    let ev0 := Event.logInfo ("Loading config file '" ++ path ++ "'.")
    match fs path with
    | some v => ({st with cfg := some v}, [ev0], none)
    | none =>
        let msg := "Failed to load config file '" ++ path ++ "'."
        if st.args_verbose then
          (st, [ev0, Event.logException msg], some (.systemExit 1))
        else
          (st, [ev0, Event.logError msg], some (.systemExit 1))

/-- `CmdlApp.on_reload` (lines 157-167): when `reload_on_hup`, log the
reload info message and reload the config file; otherwise do nothing. -/
def St.on_reload (st : St) (fs : FS) : St × List Event × Option PyExc :=
  if st.reload_on_hup then
    ((st.load_cfgfile fs).1,
     Event.logInfo "Reloading configuration due to SIGHUP signal." :: (st.load_cfgfile fs).2.1,
     (st.load_cfgfile fs).2.2)
  else
    (st, [], none)

/-- `CmdlApp.sighup_handler` (lines 170-179): on SIGHUP with reload enabled
call `on_reload`; ignore any other signal. -/
def St.sighup_handler (st : St) (fs : FS) (sig : Nat) : St × List Event × Option PyExc :=
  if sig == SIGHUP && st.reload_on_hup then
    st.on_reload fs
  else
    (st, [], none)

/-- What happens while `self.main_fct()` executes: it may log some events
then return, log then raise an exception, or be interrupted by a SIGHUP
delivery (the constructor carries the file-system contents at that moment,
since the file may have changed since startup) and then continue. -/
inductive MainBehavior where
  | ret (evs : List Event)
  | raise (evs : List Event) (e : PyExc)
  | sighup (evs : List Event) (fs2 : FS) (k : MainBehavior)

/-- Result of the work function's execution. -/
inductive MainResult where
  | ok
  | exc (e : PyExc)
  | killed
  deriving DecidableEq, Repr

/-- Execute the work function. A delivered SIGHUP runs the registered
handler in the main thread; an exception the handler raises (e.g. the
SystemExit from a failed reload's `sys.exit(1)`) propagates at the
interruption point, abandoning the rest of the work function. With no
handler registered, the default SIGHUP disposition kills the process. -/
def execMain (registered : Bool) : St → MainBehavior → St × List Event × MainResult
  | st, .ret evs => (st, evs, .ok)
  | st, .raise evs e => (st, evs, .exc e)
  | st, .sighup evs fs2 k =>
      if registered then
        match (st.sighup_handler fs2 SIGHUP).2.2 with
        | none =>
            ((execMain registered (st.sighup_handler fs2 SIGHUP).1 k).1,
             evs ++ (st.sighup_handler fs2 SIGHUP).2.1 ++
               (execMain registered (st.sighup_handler fs2 SIGHUP).1 k).2.1,
             (execMain registered (st.sighup_handler fs2 SIGHUP).1 k).2.2)
        | some e =>
            ((st.sighup_handler fs2 SIGHUP).1,
             evs ++ (st.sighup_handler fs2 SIGHUP).2.1, .exc e)
      else
        (st, evs, .killed)

/-- How the process ends (or how `run` returns). -/
inductive Outcome where
  | exited (code : Nat)
  | finished (st : St)
  | killedBySignal
  deriving DecidableEq, Repr

/-- The exit status of the process: an explicit exit code, or 0 when `run`
returned normally and the script ended; none when killed by a signal. -/
def Outcome.exitStatus : Outcome → Option Nat
  | .exited c => some c
  | .finished _ => some 0
  | .killedBySignal => none

/-- The try/except block of `CmdlApp.run` (lines 149-154): call
`self.main_fct()`; catch KeyboardInterrupt and log the goodbye message;
catch any other exception (a bare `except:`, so SystemExit included) and
log `logging.exception` with the traceback; in both cases `run` returns
normally. -/
def tryMain (registered : Bool) (st : St) (mb : MainBehavior) : List Event × Outcome :=
  match (execMain registered st mb).2.2 with
  | .ok =>
      (Event.invokeMain :: (execMain registered st mb).2.1,
       .finished (execMain registered st mb).1)
  | .exc .keyboardInterrupt =>
      (Event.invokeMain :: ((execMain registered st mb).2.1 ++
         [Event.logInfo "Terminating due to Ctrl-C. Good bye."]),
       .finished (execMain registered st mb).1)
  | .exc _ =>
      (Event.invokeMain :: ((execMain registered st mb).2.1 ++
         [Event.logException "Main function failed."]),
       .finished (execMain registered st mb).1)
  | .killed => (Event.invokeMain :: (execMain registered st mb).2.1, .killedBySignal)

/-- `CmdlApp.run` (lines 129-154): build and parse arguments (an argparse
failure exits with its own status), set up logging, register the SIGHUP
handler when `reload_on_hup`, load the config file when `has_cfgfile` (an
exception escaping the startup load is uncaught there, so the process exits
with status 1), then run the work function inside the try/except block. -/
def run (mb : MainBehavior) (has_cfgfile reload_on_hup : Bool)
    (tool_name tool_version : String) (cl : Cmdline) (fs : FS) :
    List Event × Outcome :=
  match parse_args (setup_args has_cfgfile) cl with
  | .error code => ([], .exited code)
  | .ok args =>
    let levs := setup_logging args tool_name tool_version
    let revs := if reload_on_hup then [Event.registerHandler SIGHUP] else []
    let st0 : St := ⟨reload_on_hup, has_cfgfile, args.verbose, args.cfg, none⟩
    if has_cfgfile then
      match (st0.load_cfgfile fs).2.2 with
      | some _ => (levs ++ revs ++ (st0.load_cfgfile fs).2.1, .exited 1)
      | none =>
          (levs ++ revs ++ (st0.load_cfgfile fs).2.1 ++
             (tryMain reload_on_hup (st0.load_cfgfile fs).1 mb).1,
           (tryMain reload_on_hup (st0.load_cfgfile fs).1 mb).2)
    else
      (levs ++ revs ++ (tryMain reload_on_hup st0 mb).1,
       (tryMain reload_on_hup st0 mb).2)

/-- `CmdlApp.main_fct` (lines 182-183): the default work function logs an
info message and returns. -/
def default_main_fct : MainBehavior :=
  .ret [Event.logInfo "Called the default main function implementation."]

/-- Apply a list of keyword assignments with `setattr`, left to right. -/
def applyAll (app : App) (args : List (String × PyVal)) : App :=
  args.foldl (fun a p => a.setattr p.1 p.2) app

theorem getattr_setattr_self (a : App) (k : String) (v : PyVal) :
    (a.setattr k v).getattr k = some v := by
  simp [App.setattr, App.getattr]

theorem getattr_setattr_ne (a : App) (k k2 : String) (v : PyVal) (h : k2 ≠ k) :
    (a.setattr k v).getattr k2 = a.getattr k2 := by
  simp [App.setattr, App.getattr, List.find?]
  have : (k == k2) = false := by
    simpa using fun he => h he.symm
  simp [this]

theorem applyAll_nil (app : App) : applyAll app [] = app := rfl

theorem applyAll_cons (app : App) (p : String × PyVal) (rest : List (String × PyVal)) :
    applyAll app (p :: rest) = applyAll (app.setattr p.1 p.2) rest := rfl

theorem getattr_applyAll_not_mem :
    ∀ (args : List (String × PyVal)) (app : App) (k : String),
      k ∉ args.map Prod.fst → (applyAll app args).getattr k = app.getattr k
  | [], _, _, _ => rfl
  | q :: rest, app, k, h => by
      have hk : k ≠ q.1 := by
        intro he; exact h (by simp [he])
      have hrest : k ∉ rest.map Prod.fst := by
        intro hm; exact h (by simp [hm])
      rw [applyAll_cons, getattr_applyAll_not_mem rest _ k hrest,
        getattr_setattr_ne _ _ _ _ hk]

theorem getattr_applyAll_nodup :
    ∀ (args : List (String × PyVal)) (app : App) (p : String × PyVal),
      (args.map Prod.fst).Nodup → p ∈ args →
      (applyAll app args).getattr p.1 = some p.2
  | q :: rest, app, p, hnd, hmem => by
      rw [List.map_cons, List.nodup_cons] at hnd
      rcases List.mem_cons.mp hmem with he | hm
      · subst he
        rw [applyAll_cons,
          getattr_applyAll_not_mem rest _ p.1 hnd.1,
          getattr_setattr_self]
      · rw [applyAll_cons]
        exact getattr_applyAll_nodup rest _ p hnd.2 hm

theorem configure_all_valid :
    ∀ (args : List (String × PyVal)) (app : App),
      (∀ k ∈ args.map Prod.fst, k ∈ cfg_keys) →
      App.configure app args = (applyAll app args, none)
  | [], _, _ => rfl
  | (k, v) :: rest, app, h => by
      have hk : k ∈ cfg_keys := h k (by simp)
      have hrest : ∀ k2 ∈ rest.map Prod.fst, k2 ∈ cfg_keys := by
        intro k2 hm; exact h k2 (by simp [hm])
      rw [App.configure, if_pos hk, configure_all_valid rest _ hrest, applyAll_cons]

theorem configure_stops_at_invalid :
    ∀ (pre : List (String × PyVal)) (app : App) (k : String) (v : PyVal)
      (rest : List (String × PyVal)),
      (∀ k2 ∈ pre.map Prod.fst, k2 ∈ cfg_keys) → k ∉ cfg_keys →
      App.configure app (pre ++ (k, v) :: rest) =
        (applyAll app pre, some ("Invalid config parameter '" ++ k ++ "'."))
  | [], app, k, v, rest, _, hk => by
      rw [List.nil_append, App.configure, if_neg hk, applyAll_nil]
  | (k2, v2) :: pre, app, k, v, rest, hpre, hk => by
      have hk2 : k2 ∈ cfg_keys := hpre k2 (by simp)
      have hpre2 : ∀ k3 ∈ pre.map Prod.fst, k3 ∈ cfg_keys := by
        intro k3 hm; exact hpre k3 (by simp [hm])
      rw [List.cons_append, App.configure, if_pos hk2,
        configure_stops_at_invalid pre _ k v rest hpre2 hk, applyAll_cons]

/-- C2: `configure` applies every recognized key (the value is subsequently
readable via attribute access), rejects any unrecognized key with a
ValueError naming that key, and processes the keys one at a time, so the
valid keys preceding an invalid one remain applied when the error is
raised. -/
theorem configure_keys_spec (app : App) :
    (∀ args : List (String × PyVal),
        (∀ k ∈ args.map Prod.fst, k ∈ cfg_keys) →
        App.configure app args = (applyAll app args, none) ∧
        ((args.map Prod.fst).Nodup →
          ∀ p ∈ args, (App.configure app args).1.getattr p.1 = some p.2)) ∧
    (∀ (pre : List (String × PyVal)) (k : String) (v : PyVal)
        (rest : List (String × PyVal)),
        (∀ k2 ∈ pre.map Prod.fst, k2 ∈ cfg_keys) → k ∉ cfg_keys →
        App.configure app (pre ++ (k, v) :: rest) =
          (applyAll app pre, some ("Invalid config parameter '" ++ k ++ "'."))) := by
  constructor
  · intro args hvalid
    have hc := configure_all_valid args app hvalid
    refine ⟨hc, ?_⟩
    intro hnd p hp
    rw [hc]
    exact getattr_applyAll_nodup args app p hnd hp
  · intro pre k v rest hpre hk
    exact configure_stops_at_invalid pre app k v rest hpre hk

/-- C2 witness: a concrete valid mapping is fully applied and readable, and
a mapping whose second key is invalid raises the naming error with the
first key already applied. -/
theorem configure_keys_spec_witness :
    App.configure ⟨[]⟩ [("has_cfgfile", PyVal.bool true), ("tool_name", PyVal.str "t")] =
      (applyAll ⟨[]⟩ [("has_cfgfile", PyVal.bool true), ("tool_name", PyVal.str "t")], none) ∧
    (App.configure ⟨[]⟩
        [("has_cfgfile", PyVal.bool true), ("tool_name", PyVal.str "t")]).1.getattr
        "has_cfgfile" = some (PyVal.bool true) ∧
    App.configure ⟨[]⟩ [("tool_name", PyVal.str "t"), ("oops", PyVal.bool true)] =
      (applyAll ⟨[]⟩ [("tool_name", PyVal.str "t")],
       some ("Invalid config parameter '" ++ "oops" ++ "'.")) := by
  refine ⟨?_, ?_, ?_⟩
  · exact ((configure_keys_spec ⟨[]⟩).1
      [("has_cfgfile", PyVal.bool true), ("tool_name", PyVal.str "t")] (by decide)).1
  · exact ((configure_keys_spec ⟨[]⟩).1
      [("has_cfgfile", PyVal.bool true), ("tool_name", PyVal.str "t")] (by decide)).2
      (by decide) ("has_cfgfile", PyVal.bool true) (by decide)
  · exact (configure_keys_spec ⟨[]⟩).2 [("tool_name", PyVal.str "t")] "oops"
      (PyVal.bool true) [] (by decide) (by decide)

theorem invokeMain_not_mem_setup_logging (args : Args) (tn tv : String) :
    Event.invokeMain ∉ setup_logging args tn tv := by
  simp [setup_logging]

theorem invokeMain_not_mem_reg (b : Bool) :
    Event.invokeMain ∉ (if b then [Event.registerHandler SIGHUP] else []) := by
  cases b <;> simp

theorem invokeMain_not_mem_load (st : St) (fs : FS) :
    Event.invokeMain ∉ (st.load_cfgfile fs).2.1 := by
  obtain ⟨rh0, hc0, av0, ac0, c0⟩ := st
  cases ac0 with
  | none => simp [St.load_cfgfile]
  | some path =>
      rcases h : fs path with _ | v
      · cases av0 <;> simp [St.load_cfgfile, h]
      · simp [St.load_cfgfile, h]

/-- C1: `run` executes its steps in order, each only if the previous one
completed: an argparse failure ends the run with argparse's own exit and
nothing else happens; on successful parsing the trace is the logging-setup
events, then the SIGHUP registration exactly when `reload_on_hup`, then
(when `has_cfgfile`) the config-load events — a failing startup load exits
with status 1 and the work function is never invoked — and only after all
of that is `main_fct` invoked (with no arguments), via the try block. -/
theorem run_lifecycle_order (mb : MainBehavior) (hc rh : Bool) (tn tv : String)
    (cl : Cmdline) (fs : FS) :
    (∀ code, parse_args (setup_args hc) cl = .error code →
        run mb hc rh tn tv cl fs = ([], .exited code)) ∧
    (∀ args, parse_args (setup_args hc) cl = .ok args →
      (hc = false →
        run mb hc rh tn tv cl fs =
          (setup_logging args tn tv ++
             (if rh then [Event.registerHandler SIGHUP] else []) ++
             (tryMain rh ⟨rh, hc, args.verbose, args.cfg, none⟩ mb).1,
           (tryMain rh ⟨rh, hc, args.verbose, args.cfg, none⟩ mb).2)) ∧
      (hc = true →
        ((St.load_cfgfile ⟨rh, hc, args.verbose, args.cfg, none⟩ fs).2.2 ≠ none →
            run mb hc rh tn tv cl fs =
              (setup_logging args tn tv ++
                 (if rh then [Event.registerHandler SIGHUP] else []) ++
                 (St.load_cfgfile ⟨rh, hc, args.verbose, args.cfg, none⟩ fs).2.1,
               .exited 1) ∧
            Event.invokeMain ∉ (run mb hc rh tn tv cl fs).1) ∧
        ((St.load_cfgfile ⟨rh, hc, args.verbose, args.cfg, none⟩ fs).2.2 = none →
            run mb hc rh tn tv cl fs =
              (setup_logging args tn tv ++
                 (if rh then [Event.registerHandler SIGHUP] else []) ++
                 (St.load_cfgfile ⟨rh, hc, args.verbose, args.cfg, none⟩ fs).2.1 ++
                 (tryMain rh (St.load_cfgfile ⟨rh, hc, args.verbose, args.cfg, none⟩ fs).1 mb).1,
               (tryMain rh (St.load_cfgfile ⟨rh, hc, args.verbose, args.cfg, none⟩ fs).1 mb).2)))) := by
  refine ⟨?_, ?_⟩
  · intro code hp
    simp [run, hp]
  · intro args hp
    refine ⟨?_, ?_⟩
    · intro hhc; subst hhc
      simp [run, hp]
    · intro hhc; subst hhc
      constructor
      · intro hfail
        rcases hl : (St.load_cfgfile ⟨rh, true, args.verbose, args.cfg, none⟩ fs).2.2
          with _ | e
        · exact absurd hl hfail
        · constructor
          · simp [run, hp, hl]
          · simp only [run, hp, hl]
            simp [invokeMain_not_mem_setup_logging, invokeMain_not_mem_reg,
              invokeMain_not_mem_load]
      · intro hok
        simp [run, hp, hok]

/-- C1 witness: a concrete run with a required config file whose load
fails exits with status 1, never invoking the work function. -/
theorem run_lifecycle_order_witness :
    run (MainBehavior.ret []) true false "t" "1.0" ⟨[], [("cfg", "a.yaml")]⟩
        (fun _ => none) =
      (setup_logging ⟨false, none, some "a.yaml"⟩ "t" "1.0" ++
         (if false then [Event.registerHandler SIGHUP] else []) ++
         (St.load_cfgfile ⟨false, true, false, some "a.yaml", none⟩ (fun _ => none)).2.1,
       .exited 1) ∧
    Event.invokeMain ∉
      (run (MainBehavior.ret []) true false "t" "1.0" ⟨[], [("cfg", "a.yaml")]⟩
        (fun _ => none)).1 := by
  have h := run_lifecycle_order (MainBehavior.ret []) true false "t" "1.0"
    ⟨[], [("cfg", "a.yaml")]⟩ (fun _ => none)
  exact ((h.2 ⟨false, none, some "a.yaml"⟩ rfl).2 rfl).1 (by decide)

/-- C9: the flag set always contains verbose (boolean flag, default off)
and logfile (optional, default none), and contains a required cfg flag
exactly when has_cfgfile is true; consequently parsing a command line
without cfg (and with only recognized names) succeeds when has_cfgfile is
false, and parsing any command line without cfg fails with the argparse
error exit (status 2) when has_cfgfile is true. -/
theorem setup_args_spec (hc : Bool) :
    ArgSpec.mk "-v" "--verbose" "verbose" true none false ∈ setup_args hc ∧
    ArgSpec.mk "-l" "--logfile" "logfile" false none false ∈ setup_args hc ∧
    ((∃ s ∈ setup_args hc, s.dest = "cfg" ∧ s.required = true) ↔ hc = true) ∧
    (∀ cl : Cmdline,
      (∀ n ∈ cl.flags, n = "verbose" ∨ n = "logfile") →
      (∀ q ∈ cl.opts, q.1 = "verbose" ∨ q.1 = "logfile") →
      parse_args (setup_args false) cl =
        .ok ⟨cl.flags.contains "verbose", cl.getOpt "logfile", none⟩) ∧
    (∀ cl : Cmdline, cl.getOpt "cfg" = none →
      parse_args (setup_args true) cl = .error 2) := by
  refine ⟨?_, ?_, ?_, ?_, ?_⟩
  · cases hc <;> decide
  · cases hc <;> decide
  · cases hc <;> decide
  · intro cl hf ho
    have h1 : cl.flags.all (fun n => (setup_args false).any fun s => s.dest == n) = true := by
      rw [List.all_eq_true]
      intro n hn
      rcases hf n hn with rfl | rfl <;> decide
    have h2 : cl.opts.all (fun q => (setup_args false).any fun s => s.dest == q.1) = true := by
      rw [List.all_eq_true]
      intro q hq
      rcases ho q hq with h | h <;> rw [h] <;> decide
    have h3 : ((setup_args false).all fun s => !s.required || (cl.getOpt s.dest).isSome) = true := by
      simp [setup_args]
    have h4 : ((setup_args false).any fun s => s.dest == "cfg") = false := by decide
    simp [parse_args, h1, h2, h3, h4]
  · intro cl hget
    have h3 : ((setup_args true).all fun s => !s.required || (cl.getOpt s.dest).isSome) = false := by
      simp [setup_args, hget]
    simp [parse_args, h3]

/-- C9 witness: an empty command line parses fine without a config-file
requirement and is rejected (argparse exit 2) with one. -/
theorem setup_args_spec_witness :
    parse_args (setup_args false) ⟨[], []⟩ = .ok ⟨false, none, none⟩ ∧
    parse_args (setup_args true) ⟨[], []⟩ = .error 2 := by
  constructor
  · have h := (setup_args_spec false).2.2.2.1 ⟨[], []⟩ (by simp) (by simp)
    simpa using h
  · exact (setup_args_spec true).2.2.2.2 ⟨[], []⟩ rfl

/-- C5 counterexample: with verbose off, logging is configured to level
INFO (20), but the message logged claims initialization to level
'warning' — the level named in the message is not the configured one. -/
theorem setup_logging_levelname_mismatch :
    setup_logging ⟨false, none, none⟩ "tool" "1.0" =
      [Event.basicConfig INFO none,
       Event.logInfo "tool 1.0 starting.",
       Event.logInfo "Logging system initialized to level 'warning'."] ∧
    levelOfName "warning" ≠ some INFO := by
  constructor
  · decide
  · decide

/-- C5 amended: setup_logging selects DEBUG when verbose and INFO
otherwise, and always logs (at info level) the startup banner with tool
name and version and a message naming a level; the named level equals the
configured one exactly when verbose is set — with verbose off the message
names 'warning' while the configured level is INFO. -/
theorem setup_logging_levels (args : Args) (tn tv : String) :
    ∃ lvl name,
      setup_logging args tn tv =
        [Event.basicConfig lvl args.logfile,
         Event.logInfo (tn ++ " " ++ tv ++ " starting."),
         Event.logInfo ("Logging system initialized to level '" ++ name ++ "'.")] ∧
      (args.verbose = true → lvl = DEBUG ∧ name = "debug") ∧
      (args.verbose = false → lvl = INFO ∧ name = "warning") ∧
      (levelOfName name = some lvl ↔ args.verbose = true) := by
  by_cases hv : args.verbose
  · refine ⟨DEBUG, "debug", ?_, ?_, ?_, ?_⟩
    · simp [setup_logging, hv]
    · intro _; exact ⟨rfl, rfl⟩
    · intro h; rw [hv] at h; exact absurd h (by decide)
    · simp [hv]; decide
  · rw [Bool.not_eq_true] at hv
    refine ⟨INFO, "warning", ?_, ?_, ?_, ?_⟩
    · simp [setup_logging, hv]
    · intro h; rw [hv] at h; exact absurd h (by decide)
    · intro _; exact ⟨rfl, rfl⟩
    · simp [hv]; decide

/-- C5 witness: the amended statement at a concrete non-verbose argument
set. -/
theorem setup_logging_levels_witness :
    ∃ lvl name,
      setup_logging ⟨false, none, none⟩ "t" "1" =
        [Event.basicConfig lvl none,
         Event.logInfo ("t" ++ " " ++ "1" ++ " starting."),
         Event.logInfo ("Logging system initialized to level '" ++ name ++ "'.")] ∧
      ((⟨false, none, none⟩ : Args).verbose = true → lvl = DEBUG ∧ name = "debug") ∧
      ((⟨false, none, none⟩ : Args).verbose = false → lvl = INFO ∧ name = "warning") ∧
      (levelOfName name = some lvl ↔ (⟨false, none, none⟩ : Args).verbose = true) :=
  setup_logging_levels ⟨false, none, none⟩ "t" "1"

/-- C8: the SIGHUP handler is a no-op (no reload, no state change, no
crash) whenever the delivered signal is not SIGHUP or reload_on_hup is
false at that moment; on SIGHUP with reload enabled it logs the reload
info message, invokes the config-file loader, and a successful load
replaces the in-memory cfg value wholesale with the newly parsed file
content (all other state unchanged). -/
theorem sighup_handler_spec (st : St) (fs : FS) (sig : Nat) :
    (¬(sig = SIGHUP ∧ st.reload_on_hup = true) →
        st.sighup_handler fs sig = (st, [], none)) ∧
    ((sig = SIGHUP ∧ st.reload_on_hup = true) →
        st.sighup_handler fs sig =
          ((st.load_cfgfile fs).1,
           Event.logInfo "Reloading configuration due to SIGHUP signal." ::
             (st.load_cfgfile fs).2.1,
           (st.load_cfgfile fs).2.2) ∧
        (∀ p v, st.args_cfg = some p → fs p = some v →
          (st.load_cfgfile fs).1 = {st with cfg := some v})) := by
  constructor
  · intro hneg
    have hcond : (sig == SIGHUP && st.reload_on_hup) = false := by
      by_cases hs : sig = SIGHUP
      · have hr : st.reload_on_hup = false := by
          rcases Bool.eq_false_or_eq_true st.reload_on_hup with h2 | h2
          · exact absurd ⟨hs, h2⟩ hneg
          · exact h2
        simp [hr]
      · simp [hs]
    simp [St.sighup_handler, hcond]
  · rintro ⟨rfl, hrh⟩
    refine ⟨?_, ?_⟩
    · simp [St.sighup_handler, St.on_reload, hrh]
    · intro p v hp hv
      simp [St.load_cfgfile, hp, hv]

/-- C8 witness: on SIGHUP with reload enabled the handler replaces an old
cfg value with the new file content; on SIGTERM (15) it does nothing. -/
theorem sighup_handler_spec_witness :
    St.sighup_handler ⟨true, true, false, some "a.yaml", some (Yaml.str "old")⟩
        (fun p => if p = "a.yaml" then some (Yaml.str "new") else none) SIGHUP =
      (⟨true, true, false, some "a.yaml", some (Yaml.str "new")⟩,
       [Event.logInfo "Reloading configuration due to SIGHUP signal.",
        Event.logInfo "Loading config file 'a.yaml'."], none) ∧
    St.sighup_handler ⟨true, true, false, some "a.yaml", some (Yaml.str "old")⟩
        (fun p => if p = "a.yaml" then some (Yaml.str "new") else none) 15 =
      (⟨true, true, false, some "a.yaml", some (Yaml.str "old")⟩, [], none) := by
  constructor
  · have h := (sighup_handler_spec
      ⟨true, true, false, some "a.yaml", some (Yaml.str "old")⟩
      (fun p => if p = "a.yaml" then some (Yaml.str "new") else none) SIGHUP).2
      ⟨rfl, rfl⟩
    rw [h.1]
    decide
  · have h := (sighup_handler_spec
      ⟨true, true, false, some "a.yaml", some (Yaml.str "old")⟩
      (fun p => if p = "a.yaml" then some (Yaml.str "new") else none) 15).1
      (by decide)
    rw [h]

/-- C4 counterexample: the default on_reload implementation is not a no-op
placeholder: invoked with reload enabled (as the SIGHUP handler invokes
it), it logs messages and itself reloads the config file into self.cfg. -/
theorem on_reload_not_noop :
    St.on_reload ⟨true, true, false, some "a.yaml", none⟩
        (fun p => if p = "a.yaml" then some (Yaml.str "x") else none) ≠
      (⟨true, true, false, some "a.yaml", none⟩, [], none) ∧
    (St.on_reload ⟨true, true, false, some "a.yaml", none⟩
        (fun p => if p = "a.yaml" then some (Yaml.str "x") else none)).1.cfg =
      some (Yaml.str "x") := by
  constructor
  · decide
  · decide

/-- C4 amended: on_reload is the overridable hook the SIGHUP signal
handler invokes (when the signal is SIGHUP and reload_on_hup is true), but
its default implementation is not a no-op placeholder: it performs the
config reload itself, logging the reload info message and calling
load_cfgfile; subclasses overriding it replace the reload behavior. -/
theorem sighup_on_reload_default (st : St) (fs : FS)
    (h : st.reload_on_hup = true) :
    st.sighup_handler fs SIGHUP = st.on_reload fs ∧
    st.on_reload fs =
      ((st.load_cfgfile fs).1,
       Event.logInfo "Reloading configuration due to SIGHUP signal." ::
         (st.load_cfgfile fs).2.1,
       (st.load_cfgfile fs).2.2) := by
  constructor
  · simp [St.sighup_handler, h]
  · simp [St.on_reload, h]

/-- C4 witness: the amended statement at a concrete state with reload
enabled. -/
theorem sighup_on_reload_default_witness :
    St.sighup_handler ⟨true, false, false, none, none⟩ (fun _ => none) SIGHUP =
      St.on_reload ⟨true, false, false, none, none⟩ (fun _ => none) ∧
    St.on_reload ⟨true, false, false, none, none⟩ (fun _ => none) =
      ((St.load_cfgfile ⟨true, false, false, none, none⟩ (fun _ => none)).1,
       Event.logInfo "Reloading configuration due to SIGHUP signal." ::
         (St.load_cfgfile ⟨true, false, false, none, none⟩ (fun _ => none)).2.1,
       (St.load_cfgfile ⟨true, false, false, none, none⟩ (fun _ => none)).2.2) :=
  sighup_on_reload_default ⟨true, false, false, none, none⟩ (fun _ => none) rfl

/-- C6: a startup run with has_cfgfile whose config load fails logs the
info message naming the path first, then the error — logging.exception
(with traceback) when verbose was requested, else a short logging.error —
the process exits with status 1, and the work function is never invoked. -/
theorem startup_load_failure (mb : MainBehavior) (rh : Bool) (tn tv : String)
    (cl : Cmdline) (fs : FS) (args : Args) (p : String)
    (hp : parse_args (setup_args true) cl = .ok args)
    (hcfg : args.cfg = some p) (hfs : fs p = none) :
    run mb true rh tn tv cl fs =
      (setup_logging args tn tv ++
         (if rh then [Event.registerHandler SIGHUP] else []) ++
         [Event.logInfo ("Loading config file '" ++ p ++ "'."),
          if args.verbose then
            Event.logException ("Failed to load config file '" ++ p ++ "'.")
          else
            Event.logError ("Failed to load config file '" ++ p ++ "'.")],
       Outcome.exited 1) ∧
    Event.invokeMain ∉ (run mb true rh tn tv cl fs).1 := by
  have hload : St.load_cfgfile ⟨rh, true, args.verbose, args.cfg, none⟩ fs =
      (⟨rh, true, args.verbose, args.cfg, none⟩,
       [Event.logInfo ("Loading config file '" ++ p ++ "'."),
        if args.verbose then
          Event.logException ("Failed to load config file '" ++ p ++ "'.")
        else
          Event.logError ("Failed to load config file '" ++ p ++ "'.")],
       some (.systemExit 1)) := by
    cases hv : args.verbose <;> simp [St.load_cfgfile, hcfg, hfs, hv]
  constructor
  · simp [run, hp, hload]
  · simp only [run, hp, hload]
    simp [invokeMain_not_mem_setup_logging, invokeMain_not_mem_reg]
    cases args.verbose <;> simp

/-- C6 witness: invoking a concrete tool with a cfg option naming a
missing file exits with status 1 after logging the load attempt and a
short error, and never invokes the work function. -/
theorem startup_load_failure_witness :
    run (MainBehavior.ret []) true false "t" "1.0" ⟨[], [("cfg", "missing.yaml")]⟩
        (fun _ => none) =
      (setup_logging ⟨false, none, some "missing.yaml"⟩ "t" "1.0" ++
         (if false then [Event.registerHandler SIGHUP] else []) ++
         [Event.logInfo ("Loading config file '" ++ "missing.yaml" ++ "'."),
          if (⟨false, none, some "missing.yaml"⟩ : Args).verbose then
            Event.logException ("Failed to load config file '" ++ "missing.yaml" ++ "'.")
          else
            Event.logError ("Failed to load config file '" ++ "missing.yaml" ++ "'.")],
       Outcome.exited 1) ∧
    Event.invokeMain ∉
      (run (MainBehavior.ret []) true false "t" "1.0" ⟨[], [("cfg", "missing.yaml")]⟩
        (fun _ => none)).1 :=
  startup_load_failure (MainBehavior.ret []) false "t" "1.0"
    ⟨[], [("cfg", "missing.yaml")]⟩ (fun _ => none)
    ⟨false, none, some "missing.yaml"⟩ "missing.yaml" rfl rfl rfl

/-- C7: around the work-function invocation (the try/except of run): a
KeyboardInterrupt raised by the work function is caught and logged as the
graceful goodbye info message and run returns normally (exit status 0);
any other exception it raises is caught, logged with full traceback via
logging.exception, and not re-raised — the log record is always emitted,
never silently swallowed. -/
theorem main_exception_containment (registered : Bool) (st : St)
    (evs : List Event) (e : PyExc) :
    tryMain registered st (.raise evs .keyboardInterrupt) =
      (Event.invokeMain ::
         (evs ++ [Event.logInfo "Terminating due to Ctrl-C. Good bye."]),
       .finished st) ∧
    (Outcome.finished st).exitStatus = some 0 ∧
    (e ≠ .keyboardInterrupt →
      tryMain registered st (.raise evs e) =
        (Event.invokeMain ::
           (evs ++ [Event.logException "Main function failed."]),
         .finished st) ∧
      Event.logException "Main function failed." ∈
        (tryMain registered st (.raise evs e)).1) := by
  refine ⟨?_, rfl, ?_⟩
  · simp [tryMain, execMain]
  · intro he
    have heq : tryMain registered st (.raise evs e) =
        (Event.invokeMain ::
           (evs ++ [Event.logException "Main function failed."]),
         .finished st) := by
      cases e with
      | keyboardInterrupt => exact absurd rfl he
      | systemExit c => simp [tryMain, execMain]
      | attributeError n => simp [tryMain, execMain]
      | other n => simp [tryMain, execMain]
    refine ⟨heq, ?_⟩
    rw [heq]
    simp

/-- C7 witness: a concrete non-interrupt exception from the work function
is logged with traceback and contained. -/
theorem main_exception_containment_witness :
    tryMain false ⟨false, false, false, none, none⟩
        (.raise [] (PyExc.other "ValueError")) =
      (Event.invokeMain :: ([] ++ [Event.logException "Main function failed."]),
       .finished ⟨false, false, false, none, none⟩) :=
  ((main_exception_containment false ⟨false, false, false, none, none⟩ []
      (PyExc.other "ValueError")).2.2 (by decide)).1

/-- C10: the base class provides a concrete default main_fct that merely
logs an info message and returns; a CmdlApp constructed with the defaults
(its work function neither overridden nor set via configure, no config
file, no reload) runs it to normal completion. -/
theorem default_main_fct_run (cls tn tv : String) (cl : Cmdline) (fs : FS)
    (args : Args) (hp : parse_args (setup_args false) cl = .ok args) :
    (App.init cls).2 = none ∧
    (App.init cls).1.getattr "has_cfgfile" = some (PyVal.bool false) ∧
    (App.init cls).1.getattr "reload_on_hup" = some (PyVal.bool false) ∧
    (App.init cls).1.getattr "main_fct" = none ∧
    run default_main_fct false false tn tv cl fs =
      (setup_logging args tn tv ++
         [Event.invokeMain,
          Event.logInfo "Called the default main function implementation."],
       .finished ⟨false, false, args.verbose, args.cfg, none⟩) := by
  refine ⟨rfl, rfl, rfl, rfl, ?_⟩
  simp [run, hp, tryMain, execMain, default_main_fct]

/-- C10 witness: the default-configured app run on an empty command line
completes normally after logging the default work function's message. -/
theorem default_main_fct_run_witness :
    (App.init "MyApp").2 = none ∧
    (App.init "MyApp").1.getattr "has_cfgfile" = some (PyVal.bool false) ∧
    (App.init "MyApp").1.getattr "reload_on_hup" = some (PyVal.bool false) ∧
    (App.init "MyApp").1.getattr "main_fct" = none ∧
    run default_main_fct false false "MyApp" "0.0-dev" ⟨[], []⟩ (fun _ => none) =
      (setup_logging ⟨false, none, none⟩ "MyApp" "0.0-dev" ++
         [Event.invokeMain,
          Event.logInfo "Called the default main function implementation."],
       .finished ⟨false, false, false, none, none⟩) :=
  default_main_fct_run "MyApp" "MyApp" "0.0-dev" ⟨[], []⟩ (fun _ => none)
    ⟨false, none, none⟩ rfl

/-- C3 counterexample: reload_on_hup is true, the startup load of a.yaml
succeeds, then a SIGHUP-triggered reload fails because the file is gone:
load_cfgfile calls sys.exit(1), but the SystemExit is raised while the
work function is executing and run's bare except catches it — run returns
normally and the exit status is 0, not non-zero. -/
theorem reload_failure_exit_counterexample :
    (run (.sighup [] (fun _ => none) (.ret [])) true true "t" "1.0"
        ⟨[], [("cfg", "a.yaml")]⟩
        (fun p => if p = "a.yaml" then some (Yaml.str "x") else none)).2.exitStatus =
      some 0 ∧
    Event.logError "Failed to load config file 'a.yaml'." ∈
      (run (.sighup [] (fun _ => none) (.ret [])) true true "t" "1.0"
        ⟨[], [("cfg", "a.yaml")]⟩
        (fun p => if p = "a.yaml" then some (Yaml.str "x") else none)).1 ∧
    Event.logException "Main function failed." ∈
      (run (.sighup [] (fun _ => none) (.ret [])) true true "t" "1.0"
        ⟨[], [("cfg", "a.yaml")]⟩
        (fun p => if p = "a.yaml" then some (Yaml.str "x") else none)).1 := by
  refine ⟨?_, ?_, ?_⟩ <;> decide

/-- C3 amended: a failed SIGHUP reload does take the same sys.exit(1) path
as a startup load failure, but because the SystemExit is raised while the
work function executes, run's bare except catches it, logs 'Main function
failed.', and run returns normally: the process exits with status 0, not
the startup failure's status 1. -/
theorem reload_failure_swallowed (tn tv : String) (cl : Cmdline) (fs fs2 : FS)
    (args : Args) (p : String) (v : Yaml) (evs : List Event) (k : MainBehavior)
    (hp : parse_args (setup_args true) cl = .ok args)
    (hcfg : args.cfg = some p) (hv : args.verbose = false)
    (hfs : fs p = some v) (hfs2 : fs2 p = none) :
    run (.sighup evs fs2 k) true true tn tv cl fs =
      (setup_logging args tn tv ++ [Event.registerHandler SIGHUP] ++
         [Event.logInfo ("Loading config file '" ++ p ++ "'.")] ++
         Event.invokeMain ::
           (evs ++
            [Event.logInfo "Reloading configuration due to SIGHUP signal.",
             Event.logInfo ("Loading config file '" ++ p ++ "'."),
             Event.logError ("Failed to load config file '" ++ p ++ "'."),
             Event.logException "Main function failed."]),
       .finished ⟨true, true, false, some p, some v⟩) ∧
    (Outcome.finished ⟨true, true, false, some p, some v⟩).exitStatus = some 0 := by
  have hload : St.load_cfgfile ⟨true, true, false, some p, none⟩ fs =
      (⟨true, true, false, some p, some v⟩,
       [Event.logInfo ("Loading config file '" ++ p ++ "'.")], none) := by
    simp [St.load_cfgfile, hfs]
  have hreload : St.load_cfgfile ⟨true, true, false, some p, some v⟩ fs2 =
      (⟨true, true, false, some p, some v⟩,
       [Event.logInfo ("Loading config file '" ++ p ++ "'."),
        Event.logError ("Failed to load config file '" ++ p ++ "'.")],
       some (.systemExit 1)) := by
    simp [St.load_cfgfile, hfs2]
  constructor
  · simp [run, hp, hcfg, hv, hload, tryMain, execMain, St.sighup_handler,
      St.on_reload, hreload]
  · rfl

/-- C3 amended witness: the concrete scenario of the counterexample,
through the amended statement. -/
theorem reload_failure_swallowed_witness :
    run (.sighup [] (fun _ => none) (.ret [])) true true "t" "1.0"
        ⟨[], [("cfg", "a.yaml")]⟩
        (fun p => if p = "a.yaml" then some (Yaml.str "x") else none) =
      (setup_logging ⟨false, none, some "a.yaml"⟩ "t" "1.0" ++
         [Event.registerHandler SIGHUP] ++
         [Event.logInfo ("Loading config file '" ++ "a.yaml" ++ "'.")] ++
         Event.invokeMain ::
           ([] ++
            [Event.logInfo "Reloading configuration due to SIGHUP signal.",
             Event.logInfo ("Loading config file '" ++ "a.yaml" ++ "'."),
             Event.logError ("Failed to load config file '" ++ "a.yaml" ++ "'."),
             Event.logException "Main function failed."]),
       .finished ⟨true, true, false, some "a.yaml", some (Yaml.str "x")⟩) ∧
    (Outcome.finished
        (⟨true, true, false, some "a.yaml", some (Yaml.str "x")⟩ : St)).exitStatus =
      some 0 :=
  reload_failure_swallowed "t" "1.0" ⟨[], [("cfg", "a.yaml")]⟩
    (fun p => if p = "a.yaml" then some (Yaml.str "x") else none) (fun _ => none)
    ⟨false, none, some "a.yaml"⟩ "a.yaml" (Yaml.str "x") [] (.ret [])
    rfl rfl rfl rfl rfl

end Cmdlapp
